import Mathlib

/-!
Shallow embedding of the forex gap-detector bot (`src/main.py`).

Prices, RSI readings and pip counts are modelled as rationals (`ℚ`);
timestamps and ages as integers (seconds).  Network calls are modelled by
passing their results as explicit arguments: the candle/RSI data a run
would fetch becomes a function parameter, sending a Telegram message
becomes returning the message string, and appending a sheet row becomes
returning the row value.  A Python value that may be absent (a `None`
RSI, a missing dict key) is an `Option`; Python code that may raise an
uncaught exception is `Except Unit`.
-/

/-- A parsed candle: the two fields `check_gap`/`update_outcomes` read.
`float(c['open'])` and `float(c['close'])` have already succeeded. -/
structure Candle where
  «open» : ℚ
  close : ℚ
deriving DecidableEq

/-- A raw candle as returned inside the provider's `values` list:
each field is `none` when the key is missing or `float()` would fail on it. -/
structure RawCandle where
  «open» : Option ℚ
  close : Option ℚ
deriving DecidableEq

/-- `float(x)` applied to a possibly-missing/unparsable field: raises
(`Except.error`) exactly when the value is absent. -/
def pyFloat : Option ℚ → Except Unit ℚ
  | none => Except.error ()
  | some q => Except.ok q

/-- Python truthiness of an optional float: `None` and `0.0` are falsy. -/
def pyTruthy : Option ℚ → Bool
  | none => false
  | some r => decide (r ≠ 0)

/-- `PAIR_LIST` from the config section. -/
def PAIR_LIST : List String := ["GBP/USD", "EUR/USD", "USD/JPY", "EUR/JPY", "AUD/JPY"]

/-- `TF_MAP` from the config section (insertion-ordered dict). -/
def TF_MAP : List (String × String) := [("4h", "240"), ("1day", "D")]

/-- `MIN_GAP_PIPS = 20`. -/
def MIN_GAP_PIPS : ℚ := 20

/-- Decidable substring test on character lists (Python's `in` on strings). -/
def containsSub (needle : List Char) : List Char → Bool
  | [] => needle.isEmpty
  | c :: t => needle.isPrefixOf (c :: t) || containsSub needle t

/-- Python's `"JPY" in pair`. -/
def containsJPY (pair : String) : Bool := containsSub "JPY".toList pair.toList

/-- Line 68: `pip_value = 0.0001 if "JPY" not in pair else 0.01` (detection path). -/
def pip_value_check (pair : String) : ℚ :=
  if !containsJPY pair then 1/10000 else 1/100

/-- Line 119: `pip_value = 0.0001 if "JPY" not in pair else 0.01` (resolution path). -/
def pip_value_update (pair : String) : ℚ :=
  if !containsJPY pair then 1/10000 else 1/100

/-- Spec-side notion for claim C6: the quote currency of a `BASE/QUOTE`
symbol is the part after the `/`.  Written from the spec's words, to be
compared with the code's substring test. -/
def quote_currency (pair : String) : List Char :=
  ((pair.toList).dropWhile (fun c => c ≠ '/')).drop 1

/-- Spec-side notion for claim C6: a pair "quotes Japanese Yen" when its
quote currency is `JPY`. -/
def quotesYen (pair : String) : Bool := quote_currency pair == "JPY".toList

/-- `f"{x:.1f}"`: decimal rendering of a rational rounded to one decimal place. -/
def format1 (q : ℚ) : String :=
  let n : ℤ := round (q * 10)
  (if n < 0 then "-" else "") ++ toString (n.natAbs / 10) ++ "." ++ toString (n.natAbs % 10)

/-- Line 76: `rsi_str = f"{rsi:.1f}" if rsi else "N/A"`. -/
def rsi_str (rsi : Option ℚ) : String :=
  if pyTruthy rsi then format1 (rsi.getD 0) else "N/A"

/-- `TF_MAP.get(tf, "240")`. -/
def tfLookup (tf : String) : String :=
  ((TF_MAP.find? (fun e => e.1 == tf)).map Prod.snd).getD "240"

/-- `build_chart_url` (lines 55–58). -/
def build_chart_url (pair tf : String) : String :=
  "https://www.tradingview.com/chart/?symbol=FX:" ++ pair.replace "/" "" ++
    "&interval=" ++ tfLookup tf

/-- Suggestion logic of `check_gap` (lines 80–83), with Python's truthy
short-circuit `rsi and rsi > 70` / `rsi and rsi < 30` made explicit. -/
def suggestion (direction : String) (rsi : Option ℚ) : String :=
  if direction = "GAP UP" then
    if pyTruthy rsi && decide (rsi.getD 0 > 70) then "Overbought GAP UP. Consider SHORT."
    else "GAP UP. Wait for structure."
  else
    if pyTruthy rsi && decide (rsi.getD 0 < 30) then "Oversold GAP DOWN. Consider LONG."
    else "GAP DOWN. Wait for confirmation."

/-- The Telegram text of lines 86–98, built and then `.strip()`-ped. -/
def telegram_message (direction pair tf : String) (gap_pips : ℚ)
    (rsiStr sugg chart_url : String) : String :=
  ("\n📊 " ++ direction ++ " Detected!\n📍 Pair: " ++ pair ++ "\n🕒 TF: " ++ tf ++
    "\n📏 Gap: " ++ format1 gap_pips ++ " pips\n📉 RSI: " ++ rsiStr ++
    "\n\n🧠 Suggestion:\n" ++ sugg ++ "\n\n🔗 " ++ chart_url ++ "\n    ").trim

/-- The sheet row appended by `check_gap` (lines 101–105), in column order. -/
structure GapEvent where
  timestamp : String
  pair : String
  tf : String
  gap_str : String
  rsi_str : String
  direction : String
  suggestion : String
  outcome : String
  chart_url : String
deriving DecidableEq

/-- Body of `check_gap` from line 66 on, once `curr_open` and `prev_close`
have been parsed.  Returns `none` for a silent skip, otherwise the Telegram
message that is sent together with the row that is appended. -/
def check_gap_core (pair tf : String) (curr_open prev_close : ℚ)
    (rsi : Option ℚ) (timestamp : String) : Option (String × GapEvent) :=
  let pip_value := pip_value_check pair
  let gap_pips := |curr_open - prev_close| / pip_value
  if gap_pips < MIN_GAP_PIPS then none
  else
    let direction := if curr_open > prev_close then "GAP UP" else "GAP DOWN"
    let rsiStr := rsi_str rsi
    let chart_url := build_chart_url pair tf
    let sugg := suggestion direction rsi
    let message := telegram_message direction pair tf gap_pips rsiStr sugg chart_url
    some (message,
      { timestamp := timestamp, pair := pair, tf := tf, gap_str := format1 gap_pips,
        rsi_str := rsiStr, direction := direction, suggestion := sugg,
        outcome := "Pending", chart_url := chart_url })

/-- `check_gap` (lines 61–105) on already-parsed candles, newest first.
The fetched candles, the fetched RSI and the wall-clock timestamp string
are parameters. -/
def check_gap (pair tf timestamp : String) (candles : List Candle)
    (rsi : Option ℚ) : Option (String × GapEvent) :=
  match candles with
  | c0 :: c1 :: _ => check_gap_core pair tf c0.«open» c1.close rsi timestamp
  | _ => none

/-- `check_gap` on raw candles: `float(candles[0]['open'])` and
`float(candles[1]['close'])` (lines 66–67) run outside any `try`, so a
malformed item raises — modelled as `Except.error`. -/
def check_gap_raw (pair tf timestamp : String) (candles : List RawCandle)
    (rsi : Option ℚ) : Except Unit (Option (String × GapEvent)) :=
  match candles with
  | c0 :: c1 :: _ => do
    let curr_open ← pyFloat c0.«open»
    let prev_close ← pyFloat c1.close
    Except.ok (check_gap_core pair tf curr_open prev_close rsi timestamp)
  | _ => Except.ok none

/-- `get_candles` (lines 48–53): the whole request/JSON step is inside
`try`, so a transport/JSON failure (`Except.error`) or a missing `values`
key (`none`) both degrade to `[]`; otherwise the `values` list is returned
as-is, items unexamined. -/
def get_candles (resp : Except Unit (Option (List RawCandle))) : List RawCandle :=
  match resp with
  | Except.error _ => []
  | Except.ok none => []
  | Except.ok (some vs) => vs

/-- The (pair, timeframe) work units of one run cycle, in the order
`run_bot` visits them. -/
def units : List (String × String) :=
  PAIR_LIST.flatMap fun pair => TF_MAP.map fun e => (pair, e.1)

/-- The detection pass of `run_bot` (lines 151–154) when every response is
well-formed enough for parsing: each unit's fetched candles and RSI come
from the oracles `data` and `rsiOf`. -/
def run_bot (data : String → String → List Candle)
    (rsiOf : String → String → Option ℚ) (timestamp : String) :
    List ((String × String) × Option (String × GapEvent)) :=
  units.map fun u => (u, check_gap u.1 u.2 timestamp (data u.1 u.2) (rsiOf u.1 u.2))

/-- The detection pass of `run_bot` over raw provider responses:
`data pair tf` is the raw result of the HTTP call for that unit.  `run_bot`
installs no exception handler, so an error in any unit aborts the cycle. -/
def run_bot_raw (data : String → String → Except Unit (Option (List RawCandle)))
    (rsiOf : String → String → Option ℚ) (timestamp : String) :
    Except Unit (List ((String × String) × Option (String × GapEvent))) :=
  units.mapM fun u => do
    let r ← check_gap_raw u.1 u.2 timestamp (get_candles (data u.1 u.2)) (rsiOf u.1 u.2)
    Except.ok (u, r)

/-- A data oracle whose GBP/USD 4h response has a `values` list of two
items whose first lacks a parsable `open` field; every other unit reports
no data. -/
def malformed_data (pair tf : String) : Except Unit (Option (List RawCandle)) :=
  if pair = "GBP/USD" ∧ tf = "4h" then
    Except.ok (some [⟨none, some (12470/10000)⟩, ⟨some (125/100), some (1247/1000)⟩])
  else Except.ok none

/-- A persisted sheet row as `update_outcomes` sees it (lines 108–121):
`timestamp` is the parsed `strptime` value as epoch seconds and `gap_pips`
the parsed `float(entry["Gap (pips)"])`. -/
structure Row where
  timestamp : ℤ
  pair : String
  tf : String
  gap_pips : ℚ
  rsi : String
  direction : String
  suggestion : String
  outcome : String
  chart_url : String
deriving DecidableEq

/-- Line 125: `wait_time = 6 * 3600 if tf == "4h" else 24 * 3600` (seconds). -/
def wait_time (tf : String) : ℤ :=
  if tf = "4h" then 6 * 3600 else 24 * 3600

/-- One iteration of the `update_outcomes` loop (lines 110–148) acting on a
single row: `now` is `datetime.utcnow()` as epoch seconds and `gC` the
candle fetch.  The row is returned unchanged where the loop `continue`s or
falls through both direction branches; otherwise only its outcome cell is
rewritten. -/
def resolveRow (now : ℤ) (gC : String → String → ℕ → List Candle) (entry : Row) : Row :=
  if entry.outcome ≠ "Pending" then entry
  else
    let pip_value := pip_value_update entry.pair
    let age := now - entry.timestamp
    if age < wait_time entry.tf then entry
    else
      match gC entry.pair entry.tf 1 with
      | [] => entry
      | c :: _ =>
        let open_price := c.«open»
        let curr_price := c.close
        if entry.direction = "GAP UP" then
          let expected_fill := open_price - entry.gap_pips * pip_value
          if curr_price ≤ expected_fill then { entry with outcome := "Filled ✅" }
          else { entry with outcome := "Not Filled ❌" }
        else if entry.direction = "GAP DOWN" then
          let expected_fill := open_price + entry.gap_pips * pip_value
          if curr_price ≥ expected_fill then { entry with outcome := "Filled ✅" }
          else { entry with outcome := "Not Filled ❌" }
        else entry

/-- `update_outcomes` (lines 108–148): the records are read once up front
and each row's outcome cell is written independently, so the sweep is the
rowwise map of `resolveRow`. -/
def update_outcomes (now : ℤ) (gC : String → String → ℕ → List Candle)
    (rows : List Row) : List Row :=
  rows.map (resolveRow now gC)

/-! ### Helper lemmas -/

lemma pip_value_check_pos (pair : String) : 0 < pip_value_check pair := by
  unfold pip_value_check
  split <;> norm_num

lemma resolveRow_of_ne (now : ℤ) (gC : String → String → ℕ → List Candle) (e : Row)
    (h : e.outcome ≠ "Pending") : resolveRow now gC e = e := by
  unfold resolveRow
  rw [if_pos h]

lemma resolveRow_cases (now : ℤ) (gC : String → String → ℕ → List Candle) (e : Row) :
    resolveRow now gC e = e ∨
      resolveRow now gC e = { e with outcome := "Filled ✅" } ∨
      resolveRow now gC e = { e with outcome := "Not Filled ❌" } := by
  unfold resolveRow
  split
  · exact Or.inl rfl
  · dsimp only
    split
    · exact Or.inl rfl
    · split
      · exact Or.inl rfl
      · split
        · split
          · exact Or.inr (Or.inl rfl)
          · exact Or.inr (Or.inr rfl)
        · split
          · split
            · exact Or.inr (Or.inl rfl)
            · exact Or.inr (Or.inr rfl)
          · exact Or.inl rfl

/-! ### Claims -/

/-- C1: with at least two candles available, `check_gap` produces a gap event
(sends the message and appends the row) if and only if
`gap_pips = |curr.open − prev.close| / pip_size(pair)` is at least
`MIN_GAP_PIPS = 20`; strictly below the threshold it silently skips, and a
gap of exactly 20 pips produces an event. -/
theorem check_gap_event_iff_threshold (pair tf ts : String) (c0 c1 : Candle)
    (rest : List Candle) (rsi : Option ℚ) :
    (check_gap pair tf ts (c0 :: c1 :: rest) rsi).isSome ↔
      MIN_GAP_PIPS ≤ |c0.«open» - c1.close| / pip_value_check pair := by
  show (check_gap_core pair tf c0.«open» c1.close rsi ts).isSome ↔ _
  unfold check_gap_core
  dsimp only
  split
  · next h =>
    simp only [Option.isSome_none, Bool.false_eq_true, false_iff, not_le]
    exact h
  · next h =>
    simp only [Option.isSome_some, true_iff]
    exact not_lt.mp h

/-- C2 counterexample: the classifier is NOT the spec's mapping at the
available extreme value rsi = 0: with direction GAP DOWN and rsi = 0 < 30 it
answers the generic wait message, not the oversold one, because Python's
`rsi and rsi < 30` treats the float 0.0 as falsy. -/
theorem suggestion_zero_rsi_counterexample :
    (0 : ℚ) < 30 ∧
    suggestion "GAP DOWN" (some 0) = "GAP DOWN. Wait for confirmation." ∧
    suggestion "GAP DOWN" (some 0) ≠ "Oversold GAP DOWN. Consider LONG." := by
  refine ⟨by norm_num, ?_, ?_⟩ <;> simp [suggestion, pyTruthy]

/-- C2 (amended): the classifier is a pure total function of (direction, rsi);
it follows the spec's mapping for every available *nonzero* rsi, while an
unavailable rsi — and likewise the available value rsi = 0, which Python
truthiness conflates with unavailable — falls to the non-extreme branch. -/
theorem suggestion_classifier_spec (r : ℚ) :
    suggestion "GAP UP" (some r) =
      (if r ≠ 0 ∧ 70 < r then "Overbought GAP UP. Consider SHORT."
       else "GAP UP. Wait for structure.") ∧
    suggestion "GAP DOWN" (some r) =
      (if r ≠ 0 ∧ r < 30 then "Oversold GAP DOWN. Consider LONG."
       else "GAP DOWN. Wait for confirmation.") ∧
    suggestion "GAP UP" none = "GAP UP. Wait for structure." ∧
    suggestion "GAP DOWN" none = "GAP DOWN. Wait for confirmation." := by
  refine ⟨?_, ?_, by simp [suggestion, pyTruthy], by simp [suggestion, pyTruthy]⟩ <;>
    by_cases h0 : r = 0
  · simp [suggestion, pyTruthy, h0]
  · by_cases h70 : (70 : ℚ) < r <;> simp [suggestion, pyTruthy, h0, h70]
  · simp [suggestion, pyTruthy, h0]
  · by_cases h30 : r < (30 : ℚ) <;> simp [suggestion, pyTruthy, h0, h30]

/-- C6: for every configured pair, the detection path and the resolution path
derive the same pip size from the pair symbol, and that pip size is 0.01
exactly for the pairs whose quote currency is Yen and 0.0001 otherwise. -/
theorem pip_size_consistent_and_yen_rule :
    ∀ pair ∈ PAIR_LIST,
      pip_value_check pair = pip_value_update pair ∧
      pip_value_check pair = (if quotesYen pair then 1/100 else 1/10000) := by
  intro pair hp
  fin_cases hp <;> exact ⟨rfl, rfl⟩

/-- C6 witness: instantiated at the Yen pair USD/JPY. -/
theorem pip_size_consistent_witness :
    pip_value_check "USD/JPY" = pip_value_update "USD/JPY" ∧
    pip_value_check "USD/JPY" = (if quotesYen "USD/JPY" then 1/100 else 1/10000) :=
  pip_size_consistent_and_yen_rule "USD/JPY" (by decide)

lemma pip_value_check_GBPUSD : pip_value_check "GBP/USD" = 1/10000 := by
  unfold pip_value_check
  rw [show containsJPY "GBP/USD" = false from by decide]
  rfl

/-- C3: a PENDING row that is old enough and has a current candle is resolved
by an equality-inclusive comparison: for GAP UP the outcome becomes Filled
iff `close ≤ open − gap_pips·pip`, for GAP DOWN iff `close ≥ open + gap_pips·pip`,
and nothing but the outcome cell changes. -/
theorem resolveRow_fill_comparison (now : ℤ) (gC : String → String → ℕ → List Candle)
    (e : Row) (c : Candle) (cs : List Candle)
    (hp : e.outcome = "Pending")
    (hage : ¬ (now - e.timestamp < wait_time e.tf))
    (hc : gC e.pair e.tf 1 = c :: cs) :
    (e.direction = "GAP UP" →
      resolveRow now gC e =
        { e with outcome :=
            if c.close ≤ c.«open» - e.gap_pips * pip_value_update e.pair
            then "Filled ✅" else "Not Filled ❌" }) ∧
    (e.direction = "GAP DOWN" →
      resolveRow now gC e =
        { e with outcome :=
            if c.close ≥ c.«open» + e.gap_pips * pip_value_update e.pair
            then "Filled ✅" else "Not Filled ❌" }) := by
  unfold resolveRow
  rw [if_neg (not_not_intro hp)]
  dsimp only
  rw [if_neg hage, hc]
  dsimp only
  constructor
  · intro hdir
    rw [if_pos hdir]
    by_cases hf : c.close ≤ c.«open» - e.gap_pips * pip_value_update e.pair
    · rw [if_pos hf, if_pos hf]
    · rw [if_neg hf, if_neg hf]
  · intro hdir
    have hne : ¬ e.direction = "GAP UP" := by rw [hdir]; decide
    rw [if_neg hne, if_pos hdir]
    by_cases hf : c.close ≥ c.«open» + e.gap_pips * pip_value_update e.pair
    · rw [if_pos hf, if_pos hf]
    · rw [if_neg hf, if_neg hf]

/-- C3 witness: spec scenario 3 — a 25-pip GAP UP on GBP/USD 4h, aged 7 h,
current candle open 1.3000 / close 1.2970. -/
theorem resolveRow_fill_comparison_witness :
    ((Row.mk 0 "GBP/USD" "4h" 25 "50.0" "GAP UP" "sug" "Pending" "url").direction = "GAP UP" →
      resolveRow (7*3600) (fun _ _ _ => [⟨13000/10000, 12970/10000⟩])
          (Row.mk 0 "GBP/USD" "4h" 25 "50.0" "GAP UP" "sug" "Pending" "url") =
        { Row.mk 0 "GBP/USD" "4h" 25 "50.0" "GAP UP" "sug" "Pending" "url" with
            outcome :=
              if (12970:ℚ)/10000 ≤ (13000:ℚ)/10000 - 25 * pip_value_update "GBP/USD"
              then "Filled ✅" else "Not Filled ❌" }) ∧
    ((Row.mk 0 "GBP/USD" "4h" 25 "50.0" "GAP UP" "sug" "Pending" "url").direction = "GAP DOWN" →
      resolveRow (7*3600) (fun _ _ _ => [⟨13000/10000, 12970/10000⟩])
          (Row.mk 0 "GBP/USD" "4h" 25 "50.0" "GAP UP" "sug" "Pending" "url") =
        { Row.mk 0 "GBP/USD" "4h" 25 "50.0" "GAP UP" "sug" "Pending" "url" with
            outcome :=
              if (12970:ℚ)/10000 ≥ (13000:ℚ)/10000 + 25 * pip_value_update "GBP/USD"
              then "Filled ✅" else "Not Filled ❌" }) :=
  resolveRow_fill_comparison (7*3600) (fun _ _ _ => [⟨13000/10000, 12970/10000⟩])
    (Row.mk 0 "GBP/USD" "4h" 25 "50.0" "GAP UP" "sug" "Pending" "url")
    ⟨13000/10000, 12970/10000⟩ [] rfl (by norm_num [wait_time]) rfl

/-- C4: the resolver never mutates a non-PENDING row; a sweep either leaves a
row unchanged or moves a PENDING row to Filled/Not Filled touching only the
outcome cell; once non-PENDING the row is fixed by every later sweep; and the
same holds rowwise through a whole `update_outcomes` sweep. -/
theorem outcome_transitions_once (now now' : ℤ)
    (gC gC' : String → String → ℕ → List Candle) (e : Row) :
    (e.outcome ≠ "Pending" → resolveRow now gC e = e) ∧
    (resolveRow now gC e = e ∨
      (e.outcome = "Pending" ∧
        (resolveRow now gC e = { e with outcome := "Filled ✅" } ∨
         resolveRow now gC e = { e with outcome := "Not Filled ❌" }))) ∧
    ((resolveRow now gC e).outcome ≠ "Pending" →
      resolveRow now' gC' (resolveRow now gC e) = resolveRow now gC e) ∧
    (∀ (rows : List Row) (i : ℕ) (hi : i < rows.length)
        (hj : i < (update_outcomes now gC rows).length),
      (rows.get ⟨i, hi⟩).outcome ≠ "Pending" →
        (update_outcomes now gC rows).get ⟨i, hj⟩ = rows.get ⟨i, hi⟩) := by
  refine ⟨resolveRow_of_ne now gC e, ?_, ?_, ?_⟩
  · by_cases hp : e.outcome = "Pending"
    · rcases resolveRow_cases now gC e with h | h | h
      · exact Or.inl h
      · exact Or.inr ⟨hp, Or.inl h⟩
      · exact Or.inr ⟨hp, Or.inr h⟩
    · exact Or.inl (resolveRow_of_ne now gC e hp)
  · intro h
    exact resolveRow_of_ne now' gC' _ h
  · intro rows i hi hj h
    have hm : (update_outcomes now gC rows).get ⟨i, hj⟩
        = resolveRow now gC (rows.get ⟨i, hi⟩) := by
      simp [update_outcomes, List.getElem_map]
    rw [hm]
    exact resolveRow_of_ne now gC _ h

/-- C4 witness: a row already marked Filled is untouched by a sweep. -/
theorem outcome_transitions_once_witness :
    resolveRow 0 (fun _ _ _ => [])
        (Row.mk 0 "GBP/USD" "4h" 25 "50.0" "GAP UP" "sug" "Filled ✅" "url") =
      Row.mk 0 "GBP/USD" "4h" 25 "50.0" "GAP UP" "sug" "Filled ✅" "url" :=
  (outcome_transitions_once 0 0 (fun _ _ _ => []) (fun _ _ _ => [])
    (Row.mk 0 "GBP/USD" "4h" 25 "50.0" "GAP UP" "sug" "Filled ✅" "url")).1 (by decide)

/-- C5: a PENDING row younger than its wait threshold (6 h for "4h",
24 h otherwise) is left entirely unchanged, whatever candle data the
fetch would return. -/
theorem resolveRow_young_pending_unchanged (now : ℤ)
    (gC : String → String → ℕ → List Candle) (e : Row)
    (hp : e.outcome = "Pending")
    (hage : now - e.timestamp < wait_time e.tf) :
    resolveRow now gC e = e := by
  unfold resolveRow
  rw [if_neg (not_not_intro hp)]
  dsimp only
  rw [if_pos hage]

/-- C5 witness: spec scenario 5 — a pending 4h row aged 3 h stays pending
even though a candle that would fill it is available. -/
theorem resolveRow_young_pending_unchanged_witness :
    resolveRow (3*3600) (fun _ _ _ => [⟨13000/10000, 12970/10000⟩])
        (Row.mk 0 "GBP/USD" "4h" 25 "50.0" "GAP UP" "sug" "Pending" "url") =
      Row.mk 0 "GBP/USD" "4h" 25 "50.0" "GAP UP" "sug" "Pending" "url" :=
  resolveRow_young_pending_unchanged (3*3600) (fun _ _ _ => [⟨13000/10000, 12970/10000⟩])
    (Row.mk 0 "GBP/USD" "4h" 25 "50.0" "GAP UP" "sug" "Pending" "url")
    rfl (by norm_num [wait_time])

/-- C10: a pending row whose Direction is neither "GAP UP" nor "GAP DOWN"
falls through both direction branches after the age check and the price
fetch, so the sweep writes no outcome and leaves it unchanged. -/
theorem resolveRow_unknown_direction_unchanged (now : ℤ)
    (gC : String → String → ℕ → List Candle) (e : Row)
    (hp : e.outcome = "Pending")
    (h1 : e.direction ≠ "GAP UP")
    (h2 : e.direction ≠ "GAP DOWN") :
    resolveRow now gC e = e := by
  unfold resolveRow
  rw [if_neg (not_not_intro hp)]
  dsimp only
  split
  · rfl
  · split
    · rfl
    · rfl

/-- C10 witness: an aged pending row with Direction "SIDEWAYS" survives a
sweep untouched although price data is available. -/
theorem resolveRow_unknown_direction_unchanged_witness :
    resolveRow (48*3600) (fun _ _ _ => [⟨13000/10000, 12970/10000⟩])
        (Row.mk 0 "GBP/USD" "4h" 25 "50.0" "SIDEWAYS" "sug" "Pending" "url") =
      Row.mk 0 "GBP/USD" "4h" 25 "50.0" "SIDEWAYS" "sug" "Pending" "url" :=
  resolveRow_unknown_direction_unchanged (48*3600)
    (fun _ _ _ => [⟨13000/10000, 12970/10000⟩])
    (Row.mk 0 "GBP/USD" "4h" 25 "50.0" "SIDEWAYS" "sug" "Pending" "url")
    rfl (by decide) (by decide)

/-- C9: on a qualifying input (gap at or above threshold) `check_gap` produces
an event whose direction is GAP UP exactly when `curr.open > prev.close` and
GAP DOWN exactly when `curr.open < prev.close`; the zero-difference case
cannot occur in a qualifying event, since its gap would be 0, below the
threshold. -/
theorem check_gap_direction_sign (pair tf ts : String) (c0 c1 : Candle)
    (rest : List Candle) (rsi : Option ℚ)
    (h : ¬ (|c0.«open» - c1.close| / pip_value_check pair < MIN_GAP_PIPS)) :
    ∃ msg ev, check_gap pair tf ts (c0 :: c1 :: rest) rsi = some (msg, ev) ∧
      (ev.direction = "GAP UP" ↔ c1.close < c0.«open») ∧
      (ev.direction = "GAP DOWN" ↔ c0.«open» < c1.close) ∧
      c0.«open» ≠ c1.close := by
  have hne : c0.«open» ≠ c1.close := by
    intro h0
    apply h
    rw [show c0.«open» - c1.close = 0 from sub_eq_zero_of_eq h0, abs_zero, zero_div]
    norm_num [MIN_GAP_PIPS]
  show ∃ msg ev, check_gap_core pair tf c0.«open» c1.close rsi ts = some (msg, ev) ∧ _
  unfold check_gap_core
  dsimp only
  simp only [if_neg h]
  refine ⟨_, _, rfl, ?_, ?_, hne⟩
  · show (if c0.«open» > c1.close then "GAP UP" else "GAP DOWN") = "GAP UP" ↔
      c1.close < c0.«open»
    rcases hne.lt_or_lt with hlt | hgt
    · rw [if_neg hlt.asymm]
      exact iff_of_false (by decide) hlt.asymm
    · rw [if_pos hgt]
      exact iff_of_true rfl hgt
  · show (if c0.«open» > c1.close then "GAP UP" else "GAP DOWN") = "GAP DOWN" ↔
      c0.«open» < c1.close
    rcases hne.lt_or_lt with hlt | hgt
    · rw [if_neg hlt.asymm]
      exact iff_of_true rfl hlt
    · rw [if_pos hgt]
      exact iff_of_false (by decide) hgt.asymm

/-- C9 witness: a 3-pip-price GAP UP on GBP/USD (30 pips) qualifies and its
direction is GAP UP because the current open exceeds the previous close. -/
theorem check_gap_direction_sign_witness :
    ∃ msg ev,
      check_gap "GBP/USD" "4h" "t" [⟨125/100, 999⟩, ⟨999, 1247/1000⟩] none = some (msg, ev) ∧
      (ev.direction = "GAP UP" ↔ (1247:ℚ)/1000 < 125/100) ∧
      (ev.direction = "GAP DOWN" ↔ (125:ℚ)/100 < 1247/1000) ∧
      (125:ℚ)/100 ≠ 1247/1000 :=
  check_gap_direction_sign "GBP/USD" "4h" "t" ⟨125/100, 999⟩ ⟨999, 1247/1000⟩ [] none
    (by
      show ¬ (|(125:ℚ)/100 - 1247/1000| / pip_value_check "GBP/USD" < MIN_GAP_PIPS)
      rw [pip_value_check_GBPUSD,
        abs_of_nonneg (by norm_num : (0:ℚ) ≤ 125/100 - 1247/1000)]
      norm_num [MIN_GAP_PIPS])

/-- C8: an unavailable RSI never blocks a qualifying gap: `check_gap` still
produces the Telegram message and appends a fully-populated row with outcome
Pending, the RSI cell holding the "N/A" sentinel, and the classifier giving
the non-extreme suggestion for the direction (the unavailable RSI fails both
the overbought and the oversold test). -/
theorem check_gap_rsi_unavailable (pair tf ts : String) (c0 c1 : Candle)
    (rest : List Candle)
    (h : ¬ (|c0.«open» - c1.close| / pip_value_check pair < MIN_GAP_PIPS)) :
    ∃ msg ev, check_gap pair tf ts (c0 :: c1 :: rest) none = some (msg, ev) ∧
      ev.outcome = "Pending" ∧
      ev.rsi_str = "N/A" ∧
      ev.timestamp = ts ∧ ev.pair = pair ∧ ev.tf = tf ∧
      ev.gap_str = format1 (|c0.«open» - c1.close| / pip_value_check pair) ∧
      ev.direction = (if c0.«open» > c1.close then "GAP UP" else "GAP DOWN") ∧
      ev.chart_url = build_chart_url pair tf ∧
      ev.suggestion = (if c0.«open» > c1.close then "GAP UP. Wait for structure."
                       else "GAP DOWN. Wait for confirmation.") := by
  show ∃ msg ev, check_gap_core pair tf c0.«open» c1.close none ts = some (msg, ev) ∧ _
  unfold check_gap_core
  dsimp only
  simp only [if_neg h]
  refine ⟨_, _, rfl, rfl, rfl, rfl, rfl, rfl, rfl, rfl, rfl, ?_⟩
  show suggestion (if c0.«open» > c1.close then "GAP UP" else "GAP DOWN") none = _
  by_cases hd : c0.«open» > c1.close
  · rw [if_pos hd, if_pos hd]
    simp [suggestion, pyTruthy]
  · rw [if_neg hd, if_neg hd]
    simp [suggestion, pyTruthy]

/-- C8 witness: a 30-pip GBP/USD gap with RSI unavailable still yields a
Pending event with the "N/A" sentinel and the wait-for-structure suggestion. -/
theorem check_gap_rsi_unavailable_witness :
    ∃ msg ev,
      check_gap "GBP/USD" "4h" "t" [⟨125/100, 999⟩, ⟨999, 1247/1000⟩] none = some (msg, ev) ∧
      ev.outcome = "Pending" ∧
      ev.rsi_str = "N/A" ∧
      ev.timestamp = "t" ∧ ev.pair = "GBP/USD" ∧ ev.tf = "4h" ∧
      ev.gap_str = format1 (|(125:ℚ)/100 - 1247/1000| / pip_value_check "GBP/USD") ∧
      ev.direction = (if (125:ℚ)/100 > (1247:ℚ)/1000 then "GAP UP" else "GAP DOWN") ∧
      ev.chart_url = build_chart_url "GBP/USD" "4h" ∧
      ev.suggestion = (if (125:ℚ)/100 > (1247:ℚ)/1000 then "GAP UP. Wait for structure."
                       else "GAP DOWN. Wait for confirmation.") :=
  check_gap_rsi_unavailable "GBP/USD" "4h" "t" ⟨125/100, 999⟩ ⟨999, 1247/1000⟩ []
    (by
      show ¬ (|(125:ℚ)/100 - 1247/1000| / pip_value_check "GBP/USD" < MIN_GAP_PIPS)
      rw [pip_value_check_GBPUSD,
        abs_of_nonneg (by norm_num : (0:ℚ) ≤ 125/100 - 1247/1000)]
      norm_num [MIN_GAP_PIPS])

/-- C7: the crash at a malformed `values` item.  A run whose GBP/USD 4h
response carries two candle items whose first lacks a parsable `open` field
aborts the whole cycle (the uncaught `float()` error escapes `check_gap`,
which `run_bot` does not guard), so no later pair/timeframe is processed —
while a run whose responses all fail at the transport/JSON level degrades to
"no data" and completes every unit with a silent skip. -/
theorem run_bot_malformed_item_crashes :
    run_bot_raw malformed_data (fun _ _ => none) "2025-01-01 00:00:00" = Except.error () ∧
    run_bot_raw (fun _ _ => Except.error ()) (fun _ _ => none) "2025-01-01 00:00:00" =
      Except.ok (units.map fun u => (u, none)) ∧
    run_bot_raw (fun _ _ => Except.ok none) (fun _ _ => none) "2025-01-01 00:00:00" =
      Except.ok (units.map fun u => (u, none)) :=
  ⟨rfl, rfl, rfl⟩

/-- C1 witness: the threshold criterion instantiated at a concrete 30-pip
GBP/USD gap. -/
theorem check_gap_event_iff_threshold_witness :
    (check_gap "GBP/USD" "4h" "t" [⟨125/100, 999⟩, ⟨999, 1247/1000⟩] none).isSome ↔
      MIN_GAP_PIPS ≤ |(125:ℚ)/100 - 1247/1000| / pip_value_check "GBP/USD" :=
  check_gap_event_iff_threshold "GBP/USD" "4h" "t" ⟨125/100, 999⟩ ⟨999, 1247/1000⟩ [] none

/-- C2 witness: the amended classifier mapping instantiated at rsi = 0. -/
theorem suggestion_classifier_spec_witness :
    suggestion "GAP UP" (some 0) =
      (if (0:ℚ) ≠ 0 ∧ 70 < (0:ℚ) then "Overbought GAP UP. Consider SHORT."
       else "GAP UP. Wait for structure.") ∧
    suggestion "GAP DOWN" (some 0) =
      (if (0:ℚ) ≠ 0 ∧ (0:ℚ) < 30 then "Oversold GAP DOWN. Consider LONG."
       else "GAP DOWN. Wait for confirmation.") ∧
    suggestion "GAP UP" none = "GAP UP. Wait for structure." ∧
    suggestion "GAP DOWN" none = "GAP DOWN. Wait for confirmation." :=
  suggestion_classifier_spec 0
